import Mathlib

/-!
A shallow embedding of the door-status detection core of `src/app.py`
(`SimpleDoorDetector`, the live-streaming per-frame step, and the
live-session routes `start_live`, `stop_live`, `adjust_sensitivity`),
together with theorems settling the specification claims.

Conventions of the embedding:
* A single-channel image is a pair of dimensions with a total pixel
  function; pixel intensities are natural numbers.  Floating-point
  arithmetic of the source is modelled exactly over `ℚ`.
* The OpenCV primitives `cv2.cvtColor(·, COLOR_BGR2GRAY)` followed by
  `cv2.GaussianBlur(·, (15, 15), 0)` are external, dimension-preserving
  codec capabilities (the spec treats them as opaque); detector
  operations take the composite as an explicit parameter `pre`.
* `cv2.absdiff` / `cv2.threshold` / `np.sum(thresh > 0)` are modelled
  from their documented semantics: per-pixel absolute difference
  (raising an error on shape mismatch, modelled as `none`), binary
  thresholding, and counting of nonzero pixels.
* Wall-clock timestamps (`datetime.now()` in `log_status`) are passed
  in as an explicit string argument.
-/

namespace DoorApp

/-- A single-channel image: dimensions plus a total pixel function
(entries outside the `h × w` grid are irrelevant padding). -/
structure Image where
  h : Nat
  w : Nat
  px : Nat → Nat → Nat

/-- A region of interest `(x, y, w, h)` in pixel coordinates, as stored
in `door_roi` (source: the tuple built in `set_roi`, app.py line 250). -/
def Roi : Type := Nat × Nat × Nat × Nat

instance : DecidableEq Roi := by unfold Roi; infer_instance

/-- `frame[y:y+h, x:x+w]` — numpy slicing with the usual clamping of the
slice bounds to the array extent (app.py lines 42 and 53). -/
def crop (f : Image) (r : Roi) : Image :=
  let x := r.1
  let y := r.2.1
  let w := r.2.2.1
  let h := r.2.2.2
  { h := min (y + h) f.h - min y f.h
    w := min (x + w) f.w - min x f.w
    px := fun i j => f.px (min y f.h + i) (min x f.w + j) }

/-- `cv2.absdiff(a, b)` (app.py line 57): per-pixel absolute
difference; OpenCV raises an error when the two arrays differ in
shape, modelled by `none`. -/
def absdiff (a b : Image) : Option Image :=
  if a.h = b.h ∧ a.w = b.w then
    some { h := a.h, w := a.w
           px := fun i j => max (a.px i j) (b.px i j) - min (a.px i j) (b.px i j) }
  else none

/-- `cv2.threshold(img, t, maxval, cv2.THRESH_BINARY)` (app.py line
58): each pixel becomes `maxval` when strictly above `t`, else `0`. -/
def thresholdBin (img : Image) (t maxval : Nat) : Image :=
  { img with px := fun i j => if img.px i j > t then maxval else 0 }

/-- `np.sum(thresh > 0)` (app.py line 59): the number of nonzero pixels
inside the image grid. -/
def countChanged (img : Image) : Nat :=
  ((List.range img.h).map
    (fun i => ((List.range img.w).filter (fun j => img.px i j > 0)).length)).sum

/-- The change-scoring step of `detect_door_status` (app.py lines
57-61), the spec component ChangeScorer: absolute difference of
reference and candidate, binary threshold at intensity 30, and the
percentage of changed pixels; fails (`none`) when the shapes differ. -/
def score (reference current : Image) : Option (ℚ × Image) :=
  match absdiff reference current with
  | none => none
  | some diff =>
    let thresh := thresholdBin diff 30 255
    let changed_pixels := countChanged thresh
    let total_pixels := thresh.h * thresh.w
    some (((changed_pixels : ℚ) / (total_pixels : ℚ)) * 100, thresh)

/-- An entry of the detector history (app.py line 83). -/
structure HistoryEntry where
  timestamp : String
  status : String
deriving DecidableEq

/-- The state of `SimpleDoorDetector` (app.py lines 23-30). -/
structure SimpleDoorDetector where
  door_roi : Option Roi
  reference_closed : Option Image
  door_status : String
  history : List HistoryEntry
  threshold_percentage : ℚ

/-- `SimpleDoorDetector.__init__` (app.py lines 24-30). -/
def SimpleDoorDetector.init : SimpleDoorDetector :=
  { door_roi := none
    reference_closed := none
    door_status := "Unknown"
    history := []
    threshold_percentage := 5.0 }

/-- `SimpleDoorDetector.set_door_frame` (app.py lines 32-34). -/
def set_door_frame (d : SimpleDoorDetector) (roi : Roi) : SimpleDoorDetector :=
  { d with door_roi := some roi }

/-- `SimpleDoorDetector.calibrate_closed` (app.py lines 36-45).
`pre` is the opaque grayscale-and-blur capability (lines 43-44);
returns the updated detector and the boolean result of the source. -/
def calibrate_closed (pre : Image → Image) (d : SimpleDoorDetector) (frame : Image) :
    SimpleDoorDetector × Bool :=
  match d.door_roi with
  | none => (d, false)
  | some roi => ({ d with reference_closed := some (pre (crop frame roi)) }, true)

/-- The error raised by `cv2.absdiff` inside `detect_door_status` when
the reference and the current grayscale crop differ in shape. -/
inductive CvError where
  | shapeMismatch
deriving DecidableEq

/-- `SimpleDoorDetector.detect_door_status` (app.py lines 47-77).  The
source reads but never writes the detector (there is no assignment to
any `self.` field), so it is embedded as a pure function.  Of the
visualization triple built in lines 68-75 only the binary mask
`thresh` is state-relevant; the annotated crop and the false-colored
diff are display-only and omitted.  Returns the status string, the
mask (`none` on the uncalibrated early return of lines 49-50), and the
change percentage. -/
def detect_door_status (pre : Image → Image) (d : SimpleDoorDetector) (frame : Image) :
    Except CvError (String × Option Image × ℚ) :=
  match d.door_roi, d.reference_closed with
  | some roi, some ref =>
    let current_gray := pre (crop frame roi)
    match score ref current_gray with
    | none => .error .shapeMismatch
    | some (change_percentage, thresh) =>
      let status := if change_percentage > d.threshold_percentage then "OPEN" else "CLOSED"
      .ok (status, some thresh, change_percentage)
  | _, _ => .ok ("Not Calibrated", none, 0)

/-- `SimpleDoorDetector.log_status` (app.py lines 79-83); the
wall-clock timestamp of line 81 is passed in. -/
def log_status (d : SimpleDoorDetector) (ts status : String) : SimpleDoorDetector :=
  if d.history = [] ∨ (d.history.getLast?.map HistoryEntry.status) ≠ some status then
    { d with history := d.history ++ [{ timestamp := ts, status := status }] }
  else d

/-- One iteration of the `generate_live_frames` loop body restricted to
detector state (app.py lines 107-112): classify the frame, then log the
status when it is OPEN or CLOSED.  Frame drawing and JPEG encoding
(lines 98-128) do not touch the detector and are omitted.  Returns the
updated detector, the status and the change percentage. -/
def generate_live_frames_step (pre : Image → Image) (d : SimpleDoorDetector)
    (ts : String) (frame : Image) : Except CvError (SimpleDoorDetector × String × ℚ) :=
  match detect_door_status pre d frame with
  | .error e => .error e
  | .ok (status, _, change_pct) =>
    let d2 := if status = "OPEN" ∨ status = "CLOSED" then log_status d ts status else d
    .ok (d2, status, change_pct)

/-- Folding `generate_live_frames_step` over a list of timestamped
frames: the detector after several iterations of the live loop. -/
def run_frames (pre : Image → Image) (d : SimpleDoorDetector)
    (frames : List (String × Image)) : Except CvError SimpleDoorDetector :=
  frames.foldlM (fun d tf => (generate_live_frames_step pre d tf.1 tf.2).map Prod.fst) d

/-- A camera handle as produced by `cv2.VideoCapture(0)`: whether the
device opened, and the configured capture resolution
(`CAP_PROP_FRAME_WIDTH` / `CAP_PROP_FRAME_HEIGHT`). -/
structure Camera where
  isOpened : Bool
  width : Nat
  height : Nat
deriving DecidableEq

/-- The module-level live-session globals of app.py lines 13-15. -/
structure LiveState where
  live_detector : Option SimpleDoorDetector
  live_camera : Option Camera
  live_active : Bool

/-- The initial module state: all three globals unset (app.py lines
13-15). -/
def LiveState.init : LiveState :=
  { live_detector := none, live_camera := none, live_active := false }

/-- `start_live` (app.py lines 198-217).  `cam` is the handle returned
by `cv2.VideoCapture(0)`; the source stores it in the global even when
it failed to open.  Returns the new state, the success flag and the
message of the JSON response. -/
def start_live (s : LiveState) (cam : Camera) : LiveState × Bool × String :=
  if s.live_active then (s, false, "Already running")
  else
    let s2 := { s with live_camera := some cam }
    if cam.isOpened = false then (s2, false, "Camera not available")
    else
      ({ s2 with
          live_camera := some { cam with width := 640, height := 480 }
          live_detector := some SimpleDoorDetector.init
          live_active := true }, true, "Live detection started")

/-- `stop_live` (app.py lines 220-234): deactivate, release and clear
the camera, harvest the history (empty when no detector), clear the
detector; always succeeds.  Returns the new state, the success flag
and the returned history. -/
def stop_live (s : LiveState) : LiveState × Bool × List HistoryEntry :=
  let history := match s.live_detector with
    | some d => d.history
    | none => []
  ({ live_detector := none, live_camera := none, live_active := false }, true, history)

/-- `adjust_sensitivity` (app.py lines 288-304): with a live detector,
"increase" lowers the numeric threshold by 0.5 clamped at 1.0,
"decrease" raises it by 0.5 clamped at 15.0, any other action leaves it
unchanged; without a detector the route fails.  Returns the new state
and the success flag. -/
def adjust_sensitivity (s : LiveState) (action : String) : LiveState × Bool :=
  match s.live_detector with
  | none => (s, false)
  | some d =>
    let d2 :=
      if action = "increase" then
        { d with threshold_percentage := max 1.0 (d.threshold_percentage - 0.5) }
      else if action = "decrease" then
        { d with threshold_percentage := min 15.0 (d.threshold_percentage + 0.5) }
      else d
    ({ s with live_detector := some d2 }, true)

/-! ## Concrete instances used by witnesses -/

/-- A concrete instantiation of the opaque grayscale-and-blur
capability, for witnesses: the identity transform (trivially
dimension-preserving). -/
def preId : Image → Image := id

/-- A concrete 8×8 all-black frame (the calibrated closed door). -/
def frameClosed : Image := { h := 8, w := 8, px := fun _ _ => 0 }

/-- A concrete 8×8 bright frame (the door visibly open). -/
def frameOpen : Image := { h := 8, w := 8, px := fun _ _ => 200 }

/-- A concrete 1×1 region of interest at the origin. -/
def roi0 : Roi := (0, 0, 1, 1)

/-- A fresh detector with the concrete ROI set. -/
def dRoi : SimpleDoorDetector := set_door_frame SimpleDoorDetector.init roi0

/-- The concrete detector calibrated on the closed frame. -/
def dcal : SimpleDoorDetector := (calibrate_closed preId dRoi frameClosed).1

/-- A concrete session state holding a fresh detector. -/
def sInit : LiveState :=
  { live_detector := some SimpleDoorDetector.init, live_camera := none, live_active := false }

/-- A fresh detector whose threshold sits at the lower clamp 1.0. -/
def dOne : SimpleDoorDetector := { SimpleDoorDetector.init with threshold_percentage := 1 }

/-- A fresh detector whose threshold sits at the upper clamp 15.0. -/
def dFifteen : SimpleDoorDetector := { SimpleDoorDetector.init with threshold_percentage := 15 }

/-! ## Helper lemmas -/

lemma absdiff_self (x : Image) :
    absdiff x x = some { h := x.h, w := x.w, px := fun _ _ => 0 } := by
  unfold absdiff
  simp

lemma countChanged_of_zero (img : Image) (hz : ∀ i j, img.px i j = 0) :
    countChanged img = 0 := by
  unfold countChanged
  apply List.sum_eq_zero
  intro x hx
  simp only [List.mem_map] at hx
  obtain ⟨i, _, hix⟩ := hx
  rw [← hix]
  simp [List.filter_eq_nil_iff, hz]

lemma score_self_eq (x : Image) :
    score x x = some (0, { h := x.h, w := x.w, px := fun _ _ => 0 }) := by
  have hthr : thresholdBin { h := x.h, w := x.w, px := fun _ _ => (0 : Nat) } 30 255 =
      { h := x.h, w := x.w, px := fun _ _ => 0 } := by
    unfold thresholdBin
    simp
  have hcnt : countChanged { h := x.h, w := x.w, px := fun _ _ => (0 : Nat) } = 0 :=
    countChanged_of_zero _ (fun _ _ => rfl)
  unfold score
  simp only [absdiff_self, hthr, hcnt]
  simp

lemma dcal_roi : dcal.door_roi = some roi0 := rfl

lemma dcal_ref : dcal.reference_closed = some (preId (crop frameClosed roi0)) := rfl

lemma dcal_threshold : dcal.threshold_percentage = 5 := by
  rw [show dcal.threshold_percentage = (5.0 : ℚ) from rfl]
  norm_num

lemma log_status_door_roi (d : SimpleDoorDetector) (ts s : String) :
    (log_status d ts s).door_roi = d.door_roi := by
  unfold log_status
  split <;> rfl

lemma log_status_reference (d : SimpleDoorDetector) (ts s : String) :
    (log_status d ts s).reference_closed = d.reference_closed := by
  unfold log_status
  split <;> rfl

lemma log_status_threshold (d : SimpleDoorDetector) (ts s : String) :
    (log_status d ts s).threshold_percentage = d.threshold_percentage := by
  unfold log_status
  split <;> rfl

lemma log_status_door_status (d : SimpleDoorDetector) (ts s : String) :
    (log_status d ts s).door_status = d.door_status := by
  unfold log_status
  split <;> rfl

lemma cropClosed_eq : preId (crop frameClosed roi0) = { h := 1, w := 1, px := fun _ _ => 0 } := rfl

lemma cropOpen_eq : preId (crop frameOpen roi0) = { h := 1, w := 1, px := fun _ _ => 200 } := rfl

lemma score_closed_open :
    score (preId (crop frameClosed roi0)) (preId (crop frameOpen roi0)) =
      some (100, { h := 1, w := 1, px := fun _ _ => 255 }) := by
  rw [cropClosed_eq, cropOpen_eq]
  have hdiff : absdiff { h := 1, w := 1, px := fun _ _ => (0 : Nat) }
      { h := 1, w := 1, px := fun _ _ => (200 : Nat) } =
      some { h := 1, w := 1, px := fun _ _ => 200 } := by
    unfold absdiff
    simp
  have hthr : thresholdBin { h := 1, w := 1, px := fun _ _ => (200 : Nat) } 30 255 =
      { h := 1, w := 1, px := fun _ _ => 255 } := by
    unfold thresholdBin
    simp
  have hcnt : countChanged { h := 1, w := 1, px := fun _ _ => (255 : Nat) } = 1 := rfl
  unfold score
  simp only [hdiff, hthr, hcnt]
  norm_num

lemma detect_dcal_closed :
    detect_door_status preId dcal frameClosed =
      .ok ("CLOSED", some { h := 1, w := 1, px := fun _ _ => 0 }, 0) := by
  unfold detect_door_status
  simp only [dcal_roi, dcal_ref, score_self_eq, dcal_threshold, cropClosed_eq]
  norm_num

lemma step_closed_eval (d : SimpleDoorDetector) (ts : String)
    (hroi : d.door_roi = some roi0)
    (href : d.reference_closed = some (preId (crop frameClosed roi0)))
    (hthr : d.threshold_percentage = 5) :
    generate_live_frames_step preId d ts frameClosed =
      .ok (log_status d ts "CLOSED", "CLOSED", 0) := by
  unfold generate_live_frames_step detect_door_status
  simp only [hroi, href, score_self_eq, hthr]
  norm_num

lemma step_open_eval (d : SimpleDoorDetector) (ts : String)
    (hroi : d.door_roi = some roi0)
    (href : d.reference_closed = some (preId (crop frameClosed roi0)))
    (hthr : d.threshold_percentage = 5) :
    generate_live_frames_step preId d ts frameOpen =
      .ok (log_status d ts "OPEN", "OPEN", 100) := by
  unfold generate_live_frames_step detect_door_status
  simp only [hroi, href, score_closed_open, hthr]
  norm_num

/-! ## Claim theorems -/

/-- C1: on a calibrated detector with threshold `t` in `[1, 15]`, a
frame whose computed change percentage is `p` classifies as CLOSED iff
`p ≤ t` and as OPEN iff `p > t` (the boundary `p = t` is CLOSED). -/
theorem classify_threshold_boundary (pre : Image → Image) (d : SimpleDoorDetector)
    (frame : Image) (status : String) (mask : Option Image) (p : ℚ)
    (h1 : d.door_roi ≠ none) (h2 : d.reference_closed ≠ none)
    (ht1 : 1 ≤ d.threshold_percentage) (ht2 : d.threshold_percentage ≤ 15)
    (hok : detect_door_status pre d frame = .ok (status, mask, p)) :
    (status = "CLOSED" ↔ p ≤ d.threshold_percentage) ∧
    (status = "OPEN" ↔ d.threshold_percentage < p) := by
  obtain ⟨roi, hroi⟩ := Option.ne_none_iff_exists'.mp h1
  obtain ⟨ref, href⟩ := Option.ne_none_iff_exists'.mp h2
  unfold detect_door_status at hok
  simp only [hroi, href] at hok
  cases hs : score ref (pre (crop frame roi)) with
  | none =>
    rw [hs] at hok
    exact absurd hok (by simp)
  | some pr =>
    obtain ⟨cp, m⟩ := pr
    rw [hs] at hok
    simp only [Except.ok.injEq, Prod.mk.injEq] at hok
    obtain ⟨hst, _, hp⟩ := hok
    subst hp
    by_cases hgt : d.threshold_percentage < cp
    · rw [if_pos hgt] at hst
      subst hst
      constructor
      · constructor
        · intro h; exact absurd h (by decide)
        · intro h; exact absurd (lt_of_lt_of_le hgt h) (lt_irrefl _)
      · simp [hgt]
    · rw [if_neg hgt] at hst
      subst hst
      push_neg at hgt
      constructor
      · simp [hgt]
      · constructor
        · intro h; exact absurd h (by decide)
        · intro h; exact absurd (lt_of_le_of_lt hgt h) (lt_irrefl _)

/-- C1 witness: the calibrated concrete detector on the closed frame
computes percentage 0 with threshold 5 and classifies CLOSED. -/
theorem classify_threshold_boundary_witness :
    (("CLOSED" : String) = "CLOSED" ↔ (0 : ℚ) ≤ dcal.threshold_percentage) ∧
    (("CLOSED" : String) = "OPEN" ↔ dcal.threshold_percentage < 0) :=
  classify_threshold_boundary preId dcal frameClosed "CLOSED"
    (some { h := 1, w := 1, px := fun _ _ => 0 }) 0
    (by simp [dcal_roi]) (by simp [dcal_ref])
    (by rw [dcal_threshold]; norm_num) (by rw [dcal_threshold]; norm_num)
    detect_dcal_closed

/-- C3: on a detector whose ROI or reference is unset, classification
returns the uncalibrated status and the live loop step leaves the
detector (in particular its history) completely unchanged. -/
theorem classify_uncalibrated_noop (pre : Image → Image) (d : SimpleDoorDetector)
    (ts : String) (frame : Image)
    (h : d.door_roi = none ∨ d.reference_closed = none) :
    detect_door_status pre d frame = .ok ("Not Calibrated", none, 0) ∧
    generate_live_frames_step pre d ts frame = .ok (d, "Not Calibrated", 0) := by
  have hd : detect_door_status pre d frame = .ok ("Not Calibrated", none, 0) := by
    unfold detect_door_status
    rcases h with h | h
    · simp only [h]
    · cases hroi : d.door_roi with
      | none => simp only [hroi]
      | some roi => simp only [hroi, h]
  refine ⟨hd, ?_⟩
  unfold generate_live_frames_step
  rw [hd]
  simp

/-- C3 witness: a fresh detector ignores a frame entirely. -/
theorem classify_uncalibrated_noop_witness :
    detect_door_status preId SimpleDoorDetector.init frameClosed =
      .ok ("Not Calibrated", none, 0) ∧
    generate_live_frames_step preId SimpleDoorDetector.init "t1" frameClosed =
      .ok (SimpleDoorDetector.init, "Not Calibrated", 0) :=
  classify_uncalibrated_noop preId SimpleDoorDetector.init "t1" frameClosed (Or.inl rfl)

/-- C4 counterexample: on the calibrated concrete detector the live
step classifies the closed frame as CLOSED, yet the stored status
field still reads "Unknown" — the stored field does not equal the
returned status. -/
theorem classify_updates_status_counterexample :
    (generate_live_frames_step preId dcal "t1" frameClosed).map
      (fun r => (r.1.door_status, r.2.1)) = .ok ("Unknown", "CLOSED") ∧
    ("Unknown" : String) ≠ "CLOSED" := by
  refine ⟨?_, by decide⟩
  rw [step_closed_eval dcal "t1" dcal_roi dcal_ref dcal_threshold]
  simp only [Except.map, log_status_door_status]
  rfl

/-- C4 amended: a successful classify never updates the stored
`door_status` field (the source never assigns it after `__init__`, so
it keeps its prior value, initially "Unknown"); the computed
OPEN/CLOSED value is only returned and logged. -/
theorem classify_preserves_door_status (pre : Image → Image) (d : SimpleDoorDetector)
    (ts : String) (frame : Image) (d2 : SimpleDoorDetector) (status : String) (p : ℚ)
    (hok : generate_live_frames_step pre d ts frame = .ok (d2, status, p)) :
    d2.door_status = d.door_status := by
  unfold generate_live_frames_step at hok
  cases hdet : detect_door_status pre d frame with
  | error e =>
    rw [hdet] at hok
    exact absurd hok (by simp)
  | ok r =>
    obtain ⟨st, m, cp⟩ := r
    rw [hdet] at hok
    simp only [Except.ok.injEq, Prod.mk.injEq] at hok
    obtain ⟨hd2, _, _⟩ := hok
    rw [← hd2]
    split
    · exact log_status_door_status d ts st
    · rfl

/-- C4 amended witness: the live step on the concrete detector keeps
`door_status` at its initial value. -/
theorem classify_preserves_door_status_witness :
    (log_status dcal "t1" "CLOSED").door_status = dcal.door_status :=
  classify_preserves_door_status preId dcal "t1" frameClosed
    (log_status dcal "t1" "CLOSED") "CLOSED" 0
    (step_closed_eval dcal "t1" dcal_roi dcal_ref dcal_threshold)

/-- C6: stopping is total and idempotent-safe: `stop_live` always
succeeds, leaves the session inactive with camera handle and detector
cleared, and returns the detector history, which is empty when no
detector exists. -/
theorem stop_live_always_succeeds (s : LiveState) :
    (stop_live s).2.1 = true ∧
    (stop_live s).1.live_active = false ∧
    (stop_live s).1.live_camera = none ∧
    (stop_live s).1.live_detector = none ∧
    (stop_live s).2.2 = (s.live_detector.map SimpleDoorDetector.history).getD [] := by
  unfold stop_live
  refine ⟨rfl, rfl, rfl, rfl, ?_⟩
  cases s.live_detector <;> rfl

/-- C7: recalibration wholly replaces the reference: calibrating with
frame `fA` and then with frame `fB` yields exactly the state of
calibrating with `fB` alone, so every subsequent classification
depends only on `fB`; and `calibrate_closed` succeeds exactly when the
ROI is set. -/
theorem calibrate_closed_replaces_reference (pre : Image → Image)
    (d : SimpleDoorDetector) (fA fB f : Image) :
    ((calibrate_closed pre d f).2 = true ↔ d.door_roi ≠ none) ∧
    calibrate_closed pre (calibrate_closed pre d fA).1 fB = calibrate_closed pre d fB ∧
    detect_door_status pre (calibrate_closed pre (calibrate_closed pre d fA).1 fB).1 f =
      detect_door_status pre (calibrate_closed pre d fB).1 f := by
  have hrepl : calibrate_closed pre (calibrate_closed pre d fA).1 fB =
      calibrate_closed pre d fB := by
    unfold calibrate_closed
    cases h : d.door_roi <;> simp [h]
  refine ⟨?_, hrepl, by rw [hrepl]⟩
  unfold calibrate_closed
  cases h : d.door_roi <;> simp [h]

/-- C9: scoring an image against itself yields a change percentage of
exactly 0 and an all-zero difference mask. -/
theorem score_self_zero (img : Image) :
    ∃ m, score img img = some (0, m) ∧ ∀ i j, m.px i j = 0 :=
  ⟨{ h := img.h, w := img.w, px := fun _ _ => 0 },
    score_self_eq img, fun _ _ => rfl⟩

/-- C8: the change-scoring step fails with a shape mismatch whenever
the stored reference and the cropped-and-smoothed candidate differ in
dimensions: `score` returns `none` and `detect_door_status` surfaces
the error. -/
theorem score_shape_mismatch (pre : Image → Image) (d : SimpleDoorDetector)
    (frame : Image) (roi : Roi) (ref : Image)
    (h1 : d.door_roi = some roi) (h2 : d.reference_closed = some ref)
    (h3 : ¬(ref.h = (pre (crop frame roi)).h ∧ ref.w = (pre (crop frame roi)).w)) :
    score ref (pre (crop frame roi)) = none ∧
    detect_door_status pre d frame = .error .shapeMismatch := by
  have hs : score ref (pre (crop frame roi)) = none := by
    unfold score absdiff
    simp [h3]
  refine ⟨hs, ?_⟩
  unfold detect_door_status
  simp only [h1, h2]
  rw [hs]

/-- C8 witness: replacing the 1×1 ROI used for calibration with a 2×2
ROI makes the next classification fail with a shape mismatch. -/
theorem score_shape_mismatch_witness :
    score (preId (crop frameClosed roi0))
        (preId (crop frameClosed ((0, 0, 2, 2) : Roi))) = none ∧
    detect_door_status preId (set_door_frame dcal ((0, 0, 2, 2) : Roi)) frameClosed =
      .error .shapeMismatch :=
  score_shape_mismatch preId (set_door_frame dcal ((0, 0, 2, 2) : Roi)) frameClosed
    ((0, 0, 2, 2) : Roi) (preId (crop frameClosed roi0)) rfl rfl (by decide)

/-- C10: when the camera fails to open, `start_live` reports failure,
does not mark the session active and creates no detector, so a second
start is not rejected as already active (with an openable camera it
succeeds); but the stored camera handle is replaced by the unopened
handle, so the failed start is not state-free. -/
theorem start_live_failed_open_state (s : LiveState) (cam cam2 : Camera)
    (h1 : s.live_active = false) (h2 : cam.isOpened = false)
    (h3 : cam2.isOpened = true) :
    (start_live s cam).2.1 = false ∧
    (start_live s cam).1.live_active = false ∧
    (start_live s cam).1.live_detector = s.live_detector ∧
    (start_live s cam).1.live_camera = some cam ∧
    (start_live s cam).2.2 ≠ "Already running" ∧
    (start_live (start_live s cam).1 cam2).2.1 = true := by
  unfold start_live
  simp [h1, h2, h3]

/-- C10 witness: the concrete initial state with an unopened handle,
followed by a retry with an opened handle. -/
theorem start_live_failed_open_state_witness :
    (start_live LiveState.init ⟨false, 0, 0⟩).2.1 = false ∧
    (start_live LiveState.init ⟨false, 0, 0⟩).1.live_active = false ∧
    (start_live LiveState.init ⟨false, 0, 0⟩).1.live_detector = LiveState.init.live_detector ∧
    (start_live LiveState.init ⟨false, 0, 0⟩).1.live_camera = some ⟨false, 0, 0⟩ ∧
    (start_live LiveState.init ⟨false, 0, 0⟩).2.2 ≠ "Already running" ∧
    (start_live (start_live LiveState.init ⟨false, 0, 0⟩).1 ⟨true, 0, 0⟩).2.1 = true :=
  start_live_failed_open_state LiveState.init ⟨false, 0, 0⟩ ⟨true, 0, 0⟩ rfl rfl rfl

/-- C2: history is run-length compressed — `log_status` appends a new
entry exactly when the history is empty (so the first classified
status is always logged) or the new status differs from the most
recent entry; pushing the classified sequence CLOSED, CLOSED, OPEN,
OPEN, CLOSED through the live loop from the freshly calibrated
detector leaves exactly the three entries CLOSED, OPEN, CLOSED. -/
theorem history_run_length_compression (d : SimpleDoorDetector) (ts s : String) :
    ((log_status d ts s).history =
      if d.history = [] ∨ d.history.getLast?.map HistoryEntry.status ≠ some s
      then d.history ++ [{ timestamp := ts, status := s }] else d.history) ∧
    ((log_status d ts s).history = d.history ++ [{ timestamp := ts, status := s }] ↔
      (d.history = [] ∨ d.history.getLast?.map HistoryEntry.status ≠ some s)) ∧
    SimpleDoorDetector.init.history = [] ∧
    (run_frames preId dcal
        [("t1", frameClosed), ("t2", frameClosed), ("t3", frameOpen),
         ("t4", frameOpen), ("t5", frameClosed)]).map
      (fun d2 => d2.history.map HistoryEntry.status) =
      .ok ["CLOSED", "OPEN", "CLOSED"] := by
  have hcond : ∀ d2 : SimpleDoorDetector, ∀ ts2 s2 : String,
      (log_status d2 ts2 s2).history =
        if d2.history = [] ∨ d2.history.getLast?.map HistoryEntry.status ≠ some s2
        then d2.history ++ [{ timestamp := ts2, status := s2 }] else d2.history := by
    intro d2 ts2 s2
    by_cases hc : d2.history = [] ∨ d2.history.getLast?.map HistoryEntry.status ≠ some s2
    · simp only [log_status, if_pos hc]
    · simp only [log_status, if_neg hc]
  refine ⟨hcond d ts s, ?_, rfl, ?_⟩
  · rw [hcond d ts s]
    by_cases hc : d.history = [] ∨ d.history.getLast?.map HistoryEntry.status ≠ some s
    · rw [if_pos hc]
      exact iff_of_true rfl hc
    · rw [if_neg hc]
      constructor
      · intro heq
        have hlen := congrArg List.length heq
        simp only [List.length_append, List.length_cons, List.length_nil] at hlen
        omega
      · intro h
        exact absurd h hc
  · have d1 := log_status dcal "t1" "CLOSED"
    have e1 := step_closed_eval dcal "t1" dcal_roi dcal_ref dcal_threshold
    have e2 := step_closed_eval (log_status dcal "t1" "CLOSED") "t2"
      (by rw [log_status_door_roi]; exact dcal_roi)
      (by rw [log_status_reference]; exact dcal_ref)
      (by rw [log_status_threshold]; exact dcal_threshold)
    have e3 := step_open_eval (log_status (log_status dcal "t1" "CLOSED") "t2" "CLOSED") "t3"
      (by rw [log_status_door_roi, log_status_door_roi]; exact dcal_roi)
      (by rw [log_status_reference, log_status_reference]; exact dcal_ref)
      (by rw [log_status_threshold, log_status_threshold]; exact dcal_threshold)
    have e4 := step_open_eval (log_status (log_status (log_status dcal "t1" "CLOSED") "t2"
        "CLOSED") "t3" "OPEN") "t4"
      (by rw [log_status_door_roi, log_status_door_roi, log_status_door_roi]; exact dcal_roi)
      (by rw [log_status_reference, log_status_reference, log_status_reference]; exact dcal_ref)
      (by rw [log_status_threshold, log_status_threshold, log_status_threshold];
          exact dcal_threshold)
    have e5 := step_closed_eval (log_status (log_status (log_status (log_status dcal "t1"
        "CLOSED") "t2" "CLOSED") "t3" "OPEN") "t4" "OPEN") "t5"
      (by rw [log_status_door_roi, log_status_door_roi, log_status_door_roi,
          log_status_door_roi]; exact dcal_roi)
      (by rw [log_status_reference, log_status_reference, log_status_reference,
          log_status_reference]; exact dcal_ref)
      (by rw [log_status_threshold, log_status_threshold, log_status_threshold,
          log_status_threshold]; exact dcal_threshold)
    unfold run_frames
    simp only [List.foldlM, e1, e2, e3, e4, e5, Except.map, Except.bind, bind,
      pure, Except.pure, Except.ok.injEq]
    decide

/-- C5: "increase sensitivity" sets the threshold to
`max 1.0 (threshold - 0.5)` and "decrease sensitivity" to
`min 15.0 (threshold + 0.5)`; any number of repeated increases from a
threshold of 1.0 stays at 1.0 and repeated decreases from 15.0 stay at
15.0. -/
theorem adjust_sensitivity_steps_and_clamps (s : LiveState) (d : SimpleDoorDetector)
    (n : Nat) (hd : s.live_detector = some d) :
    ((adjust_sensitivity s "increase").1.live_detector =
      some { d with threshold_percentage := max 1.0 (d.threshold_percentage - 0.5) }) ∧
    ((adjust_sensitivity s "decrease").1.live_detector =
      some { d with threshold_percentage := min 15.0 (d.threshold_percentage + 0.5) }) ∧
    (((fun s2 => (adjust_sensitivity s2 "increase").1)^[n]
        { s with live_detector := some { d with threshold_percentage := 1 } }).live_detector.map
      SimpleDoorDetector.threshold_percentage = some 1) ∧
    (((fun s2 => (adjust_sensitivity s2 "decrease").1)^[n]
        { s with live_detector := some { d with threshold_percentage := 15 } }).live_detector.map
      SimpleDoorDetector.threshold_percentage = some 15) := by
  have hinc : ∀ s2 : LiveState,
      s2.live_detector.map SimpleDoorDetector.threshold_percentage = some 1 →
      (adjust_sensitivity s2 "increase").1.live_detector.map
        SimpleDoorDetector.threshold_percentage = some 1 := by
    intro s2 h
    cases hs : s2.live_detector with
    | none => rw [hs] at h; exact absurd h (by simp)
    | some d2 =>
      rw [hs] at h
      simp only [Option.map_some', Option.some.injEq] at h
      have hval : (adjust_sensitivity s2 "increase").1.live_detector.map
          SimpleDoorDetector.threshold_percentage =
          some (max 1.0 (d2.threshold_percentage - 0.5)) := by
        unfold adjust_sensitivity
        rw [hs]
        rfl
      rw [hval, h]
      norm_num
  have hdec : ∀ s2 : LiveState,
      s2.live_detector.map SimpleDoorDetector.threshold_percentage = some 15 →
      (adjust_sensitivity s2 "decrease").1.live_detector.map
        SimpleDoorDetector.threshold_percentage = some 15 := by
    intro s2 h
    cases hs : s2.live_detector with
    | none => rw [hs] at h; exact absurd h (by simp)
    | some d2 =>
      rw [hs] at h
      simp only [Option.map_some', Option.some.injEq] at h
      have hval : (adjust_sensitivity s2 "decrease").1.live_detector.map
          SimpleDoorDetector.threshold_percentage =
          some (min 15.0 (d2.threshold_percentage + 0.5)) := by
        unfold adjust_sensitivity
        rw [hs]
        rfl
      rw [hval, h]
      norm_num
  have hiter : ∀ (f : LiveState → LiveState) (v : ℚ),
      (∀ s2 : LiveState, s2.live_detector.map SimpleDoorDetector.threshold_percentage = some v →
        (f s2).live_detector.map SimpleDoorDetector.threshold_percentage = some v) →
      ∀ (k : Nat) (s2 : LiveState),
        s2.live_detector.map SimpleDoorDetector.threshold_percentage = some v →
        (f^[k] s2).live_detector.map SimpleDoorDetector.threshold_percentage = some v := by
    intro f v hf k
    induction k with
    | zero => intro s2 h; simpa using h
    | succ j ih =>
      intro s2 h
      rw [Function.iterate_succ_apply]
      exact ih _ (hf s2 h)
  refine ⟨?_, ?_, ?_, ?_⟩
  · unfold adjust_sensitivity
    rw [hd]
    rfl
  · unfold adjust_sensitivity
    rw [hd]
    rfl
  · exact hiter _ 1 hinc n _ (by simp)
  · exact hiter _ 15 hdec n _ (by simp)

/-- C5 witness: three repeated adjustments on a session holding a
fresh detector (threshold 5.0, and clamped variants at 1.0/15.0). -/
theorem adjust_sensitivity_steps_and_clamps_witness :
    ((adjust_sensitivity sInit "increase").1.live_detector =
      some { SimpleDoorDetector.init with
        threshold_percentage := max 1.0 (SimpleDoorDetector.init.threshold_percentage - 0.5) }) ∧
    ((adjust_sensitivity sInit "decrease").1.live_detector =
      some { SimpleDoorDetector.init with
        threshold_percentage := min 15.0 (SimpleDoorDetector.init.threshold_percentage + 0.5) }) ∧
    (((fun s2 => (adjust_sensitivity s2 "increase").1)^[3]
        { sInit with live_detector := some dOne }).live_detector.map
      SimpleDoorDetector.threshold_percentage = some 1) ∧
    (((fun s2 => (adjust_sensitivity s2 "decrease").1)^[3]
        { sInit with live_detector := some dFifteen }).live_detector.map
      SimpleDoorDetector.threshold_percentage = some 15) :=
  adjust_sensitivity_steps_and_clamps sInit SimpleDoorDetector.init 3 rfl

end DoorApp
